import Mathlib

/-!
Shallow embedding of the connection lifecycle subsystem of the
Consult backend (TypeScript sources: `src/types/connection.ts`,
`ConnectionService` in the service file, `src/schemas/connectionSchemas.ts`).

The SQL store of the `Connections` table is modelled as a list of rows plus
the identity counter; the two participant tables are modelled as lists of ids.
Timestamps (`Date`) are modelled as natural-number ticks.  Each service method
is translated statement by statement; `throw new Error(...)` becomes the
corresponding constructor of `ConnErr` (the source message is recorded in the
constructor's doc comment).
-/

namespace ConsultBackend

/-- Participant kind, source union type `'consultant' | 'client'`. -/
inductive UserType where
  | consultant
  | client
deriving DecidableEq

/-- Connection status, source union `'pending' | 'accepted' | 'rejected' | 'removed'`. -/
inductive ConnStatus where
  | pending
  | accepted
  | rejected
  | removed
deriving DecidableEq

/-- The string stored in the `Status` column for each status value. -/
def statusString : ConnStatus → String
  | .pending => "pending"
  | .accepted => "accepted"
  | .rejected => "rejected"
  | .removed => "removed"

/-- A row of the `Connections` table / the `Connection` interface.
`responseDate` is the nullable `ResponseDate` column. -/
structure Connection where
  connectionId : Nat
  requesterId : Nat
  requesterType : UserType
  receiverId : Nat
  receiverType : UserType
  status : ConnStatus
  requestDate : Nat
  responseDate : Option Nat
  createdAt : Nat
  updatedAt : Nat
deriving DecidableEq

/-- Body of a create request (`CreateConnectionRequest`). -/
structure CreateConnectionRequest where
  receiverId : Nat
  receiverType : UserType
deriving DecidableEq

/-- Body of an update request (`UpdateConnectionRequest`).  The zod schema
restricts the field to accepted/rejected/removed, but the service itself
accepts any status string, so the field carries the full status type. -/
structure UpdateConnectionRequest where
  status : ConnStatus
deriving DecidableEq

/-- The durable state: both participant tables (as id lists) and the
`Connections` table together with its identity counter. -/
structure Db where
  consultants : List Nat
  clients : List Nat
  connections : List Connection
  nextId : Nat
deriving DecidableEq

/-- Typed failure. Each constructor corresponds to one `throw new Error(...)`
site of the service:
selfConnection = "Cannot connect to yourself",
duplicatePending = "Connection request already pending",
alreadyConnected = "Users are already connected",
connectionNotFound = "Connection not found",
unauthorized = "Unauthorized to update this connection",
onlyReceiver = "Only the receiver can accept or reject a connection request",
invalidTransition = "Invalid status transition from ... to ...",
userNotFound = "consultant not found" / "client not found". -/
inductive ConnErr where
  | userNotFound (userType : UserType)
  | selfConnection
  | duplicatePending
  | alreadyConnected
  | connectionNotFound
  | unauthorized
  | onlyReceiver
  | invalidTransition (current new : ConnStatus)
deriving DecidableEq

/-- The spec's `NotFound` class: participant or connection absent. -/
def ConnErr.isNotFound : ConnErr → Bool
  | .userNotFound _ => true
  | .connectionNotFound => true
  | _ => false

/-- The spec's `Unauthorized` class: wrong actor for the requested operation
(covers both the not-a-participant error and the only-receiver error). -/
def ConnErr.isUnauthorized : ConnErr → Bool
  | .unauthorized => true
  | .onlyReceiver => true
  | _ => false

/-- Membership test `SELECT 1 FROM Consultants/Clients WHERE ConsultantID/ClientID = @userId`
has a row (the membership test inside `validateUserExists`). -/
def userExists (db : Db) (userId : Nat) (userType : UserType) : Bool :=
  match userType with
  | .consultant => db.consultants.contains userId
  | .client => db.clients.contains userId

/-- Source `ConnectionService.validateUserExists`: throws "`userType` not found"
when the lookup returns no row. -/
def validateUserExists (db : Db) (userId : Nat) (userType : UserType) :
    Except ConnErr Unit :=
  if userExists db userId userType then Except.ok ()
  else Except.error (ConnErr.userNotFound userType)

/-- The pair condition of `getExistingConnection`'s WHERE clause: the row links
user1 and user2 in either orientation. -/
def pairMatches (c : Connection) (u1Id : Nat) (u1Ty : UserType)
    (u2Id : Nat) (u2Ty : UserType) : Bool :=
  (c.requesterId == u1Id && c.requesterType == u1Ty
    && c.receiverId == u2Id && c.receiverType == u2Ty)
  || (c.requesterId == u2Id && c.requesterType == u2Ty
    && c.receiverId == u1Id && c.receiverType == u1Ty)

/-- The `Status IN ('pending', 'accepted')` filter. -/
def isActive (c : Connection) : Bool :=
  c.status == ConnStatus.pending || c.status == ConnStatus.accepted

/-- Query `SELECT TOP 1 ... ORDER BY CreatedAt DESC` over a row list: the first row
of maximal `CreatedAt`, or none when the list is empty. -/
def mostRecentlyCreated : List Connection → Option Connection
  | [] => none
  | c :: rest =>
    match mostRecentlyCreated rest with
    | none => some c
    | some b => if c.createdAt < b.createdAt then some b else some c

/-- Source `ConnectionService.getExistingConnection`: both orderings of the pair,
restricted to active statuses, most recently created row first. -/
def getExistingConnection (db : Db) (u1Id : Nat) (u1Ty : UserType)
    (u2Id : Nat) (u2Ty : UserType) : Option Connection :=
  mostRecentlyCreated
    (db.connections.filter fun c => pairMatches c u1Id u1Ty u2Id u2Ty && isActive c)

/-- Source `ConnectionService.getConnectionById`:
`SELECT * FROM Connections WHERE ConnectionID = @connectionId`. -/
def getConnectionById (db : Db) (connectionId : Nat) : Option Connection :=
  db.connections.find? fun c => c.connectionId == connectionId

/-- The row produced by the `INSERT INTO Connections` of `createConnection`:
a fresh pending row with `RequestDate`, `CreatedAt`, `UpdatedAt` all set to
now and a store-assigned id. -/
def newConnectionRow (db : Db) (requesterId : Nat) (requesterType : UserType)
    (data : CreateConnectionRequest) (now : Nat) : Connection :=
  { connectionId := db.nextId
    requesterId := requesterId
    requesterType := requesterType
    receiverId := data.receiverId
    receiverType := data.receiverType
    status := ConnStatus.pending
    requestDate := now
    responseDate := none
    createdAt := now
    updatedAt := now }

/-- The `INSERT INTO Connections ... OUTPUT INSERTED.*` at the end of
`createConnection`: append the fresh row and return it. -/
def insertConnection (db : Db) (requesterId : Nat) (requesterType : UserType)
    (data : CreateConnectionRequest) (now : Nat) : Except ConnErr (Connection × Db) :=
  Except.ok (newConnectionRow db requesterId requesterType data now,
    { db with connections := db.connections ++ [newConnectionRow db requesterId requesterType data now]
              nextId := db.nextId + 1 })

/-- Source `ConnectionService.createConnection`, statement by statement: validate the
receiver, validate the requester, reject self-connection, inspect the existing
active record (pending → duplicate, accepted → already connected, a
rejected/removed result would fall through to the insert), then insert. -/
def createConnection (db : Db) (requesterId : Nat) (requesterType : UserType)
    (data : CreateConnectionRequest) (now : Nat) : Except ConnErr (Connection × Db) :=
  match validateUserExists db data.receiverId data.receiverType with
  | Except.error e => Except.error e
  | Except.ok _ =>
    match validateUserExists db requesterId requesterType with
    | Except.error e => Except.error e
    | Except.ok _ =>
      if requesterId == data.receiverId && requesterType == data.receiverType then
        Except.error ConnErr.selfConnection
      else
        match getExistingConnection db requesterId requesterType
            data.receiverId data.receiverType with
        | some existingConnection =>
          if existingConnection.status == ConnStatus.pending then
            Except.error ConnErr.duplicatePending
          else if existingConnection.status == ConnStatus.accepted then
            Except.error ConnErr.alreadyConnected
          else
            insertConnection db requesterId requesterType data now
        | none => insertConnection db requesterId requesterType data now

/-- The check `connection.receiverId === userId && connection.receiverType === userType`. -/
def isReceiverOf (c : Connection) (userId : Nat) (userType : UserType) : Bool :=
  c.receiverId == userId && c.receiverType == userType

/-- The check `connection.requesterId === userId && connection.requesterType === userType`. -/
def isRequesterOf (c : Connection) (userId : Nat) (userType : UserType) : Bool :=
  c.requesterId == userId && c.requesterType == userType

/-- Source `ConnectionService.validateStatusTransition`: only the receiver may
accept/reject a pending request; either party may remove an accepted
connection; anything else is an invalid transition.  The `isRequester`
argument is present in the source signature but unused there as well. -/
def validateStatusTransition (currentStatus newStatus : ConnStatus)
    (isRequester isReceiver : Bool) : Except ConnErr Unit :=
  if currentStatus == ConnStatus.pending
      && (newStatus == ConnStatus.accepted || newStatus == ConnStatus.rejected) then
    if !isReceiver then Except.error ConnErr.onlyReceiver
    else Except.ok ()
  else if currentStatus == ConnStatus.accepted && newStatus == ConnStatus.removed then
    Except.ok ()
  else
    Except.error (ConnErr.invalidTransition currentStatus newStatus)

/-- Source `ConnectionService.updateConnectionStatus`: load the row, check the actor
is a participant, validate the transition, then
`UPDATE Connections SET Status = @status, ResponseDate = @responseDate,
UpdatedAt = @updatedAt WHERE ConnectionID = @connectionId`, with
`responseDate = connection.status === 'pending' ? now : connection.responseDate`. -/
def updateConnectionStatus (db : Db) (connectionId userId : Nat)
    (userType : UserType) (data : UpdateConnectionRequest) (now : Nat) :
    Except ConnErr (Connection × Db) :=
  match getConnectionById db connectionId with
  | none => Except.error ConnErr.connectionNotFound
  | some conn =>
    let isReceiver := isReceiverOf conn userId userType
    let isRequester := isRequesterOf conn userId userType
    if !isReceiver && !isRequester then
      Except.error ConnErr.unauthorized
    else
      match validateStatusTransition conn.status data.status isRequester isReceiver with
      | Except.error e => Except.error e
      | Except.ok _ =>
        let responseDate :=
          if conn.status == ConnStatus.pending then some now else conn.responseDate
        let updated : Connection :=
          { conn with status := data.status, responseDate := responseDate, updatedAt := now }
        Except.ok (updated,
          { db with connections :=
              db.connections.map fun c =>
                if c.connectionId == connectionId then updated else c })

/-- Sort keys accepted by the listing query (`sort_by` in the zod schema). -/
inductive SortBy where
  | requestDate
  | responseDate
  | status
deriving DecidableEq

/-- Sort directions accepted by the listing query (`sort_order`). -/
inductive SortOrder where
  | ASC
  | DESC
deriving DecidableEq

/-- Filter record `ConnectionFilters`: all fields optional; an absent field is `none`.
A numeric field explicitly set to 0 is distinguished from an absent one
because JavaScript treats 0 as falsy in `filters.page || 1`. -/
structure ConnectionFilters where
  status : Option ConnStatus := none
  requesterType : Option UserType := none
  receiverType : Option UserType := none
  page : Option Nat := none
  limit : Option Nat := none
  sort_by : Option SortBy := none
  sort_order : Option SortOrder := none
deriving DecidableEq

/-- Source `const page = filters.page || 1` (0 and undefined are both falsy). -/
def effectivePage (filters : ConnectionFilters) : Nat :=
  match filters.page with
  | none => 1
  | some p => if p == 0 then 1 else p

/-- Source `const limit = Math.min(filters.limit || 10, 100)`. -/
def effectiveLimit (filters : ConnectionFilters) : Nat :=
  match filters.limit with
  | none => 10
  | some l => if l == 0 then 10 else min l 100

/-- Source `const sortBy = filters.sort_by || 'requestDate'`. -/
def effectiveSortBy (filters : ConnectionFilters) : SortBy :=
  filters.sort_by.getD SortBy.requestDate

/-- Source `const sortOrder = filters.sort_order || 'DESC'`. -/
def effectiveSortOrder (filters : ConnectionFilters) : SortOrder :=
  filters.sort_order.getD SortOrder.DESC

/-- The WHERE clause of `getUserConnections`: the user is requester or
receiver, plus one conjunct per present optional filter. -/
def whereMatches (userId : Nat) (userType : UserType)
    (filters : ConnectionFilters) (c : Connection) : Bool :=
  ((c.requesterId == userId && c.requesterType == userType)
    || (c.receiverId == userId && c.receiverType == userType))
  && (match filters.status with
      | none => true
      | some s => c.status == s)
  && (match filters.requesterType with
      | none => true
      | some t => c.requesterType == t)
  && (match filters.receiverType with
      | none => true
      | some t => c.receiverType == t)

/-- Comparison on the nullable `ResponseDate` column: SQL Server treats NULL
as the lowest value. -/
def optionNatLe : Option Nat → Option Nat → Bool
  | none, _ => true
  | some _, none => false
  | some a, some b => decide (a ≤ b)

/-- Ascending comparison for one sort key.  `ORDER BY Status` compares the
stored status strings. -/
def sortFieldLe (sb : SortBy) (c1 c2 : Connection) : Bool :=
  match sb with
  | SortBy.requestDate => decide (c1.requestDate ≤ c2.requestDate)
  | SortBy.responseDate => optionNatLe c1.responseDate c2.responseDate
  | SortBy.status => decide (statusString c1.status ≤ statusString c2.status)

/-- Clause `ORDER BY sortBy sortOrder` of the listing query: DESC flips the comparison. -/
def sortLe (sb : SortBy) (so : SortOrder) (c1 c2 : Connection) : Bool :=
  match so with
  | SortOrder.ASC => sortFieldLe sb c1 c2
  | SortOrder.DESC => sortFieldLe sb c2 c1

/-- Insert into a sorted list (stable). -/
def insertSorted (le : Connection → Connection → Bool) (c : Connection) :
    List Connection → List Connection
  | [] => [c]
  | x :: xs => if le c x then c :: x :: xs else x :: insertSorted le c xs

/-- Stable sort modelling the ORDER BY of the listing query. -/
def sortConnections (le : Connection → Connection → Bool) :
    List Connection → List Connection
  | [] => []
  | x :: xs => insertSorted le x (sortConnections le xs)

/-- The `pagination` object returned by `getUserConnections`. -/
structure PaginationInfo where
  page : Nat
  limit : Nat
  total : Nat
  totalPages : Nat
  hasNext : Bool
  hasPrev : Bool
deriving DecidableEq

/-- Result shape `PaginatedConnectionResponse` (the per-item participant display
enrichment from the LEFT JOINs carries no lifecycle state and is omitted;
each item is the underlying connection row). -/
structure PaginatedConnectionResponse where
  data : List Connection
  pagination : PaginationInfo
deriving DecidableEq

/-- Source `ConnectionService.getUserConnections`: WHERE filter, COUNT, ORDER BY,
`OFFSET (page-1)*limit ROWS FETCH NEXT limit ROWS ONLY`, and the pagination
metadata (`totalPages = Math.ceil(total / limit)`). -/
def getUserConnections (db : Db) (userId : Nat) (userType : UserType)
    (filters : ConnectionFilters) : PaginatedConnectionResponse :=
  let page := effectivePage filters
  let limit := effectiveLimit filters
  let offset := (page - 1) * limit
  let matching := db.connections.filter (whereMatches userId userType filters)
  let total := matching.length
  let sorted := sortConnections (sortLe (effectiveSortBy filters) (effectiveSortOrder filters)) matching
  let totalPages := (total + limit - 1) / limit
  { data := (sorted.drop offset).take limit
    pagination :=
      { page := page
        limit := limit
        total := total
        totalPages := totalPages
        hasNext := decide (page < totalPages)
        hasPrev := decide (page > 1) } }

/-- The row written by a successful status update: `Status`, `ResponseDate`
and `UpdatedAt` change, every other column keeps its value. -/
def updatedRow (conn : Connection) (data : UpdateConnectionRequest) (now : Nat) : Connection :=
  { conn with status := data.status
              responseDate :=
                if conn.status == ConnStatus.pending then some now else conn.responseDate
              updatedAt := now }

/-- Result shape of `getConnectionStatus`. -/
structure ConnectionStatusResult where
  status : String
  canConnect : Bool
  connection : Option Connection
deriving DecidableEq

/-- Source `ConnectionService.getConnectionStatus`: no active record means status
"none" and canConnect; otherwise canConnect exactly when the found record is
rejected or removed. -/
def getConnectionStatus (db : Db) (u1Id : Nat) (u1Ty : UserType)
    (u2Id : Nat) (u2Ty : UserType) : ConnectionStatusResult :=
  match getExistingConnection db u1Id u1Ty u2Id u2Ty with
  | none => { status := "none", canConnect := true, connection := none }
  | some connection =>
    { status := statusString connection.status
      canConnect := connection.status == ConnStatus.rejected
        || connection.status == ConnStatus.removed
      connection := some connection }

/-! Concrete sample data used by the witness theorems. -/

/-- A pending connection proposed by consultant 1 to client 5. -/
def exConn : Connection :=
  { connectionId := 1, requesterId := 1, requesterType := UserType.consultant,
    receiverId := 5, receiverType := UserType.client, status := ConnStatus.pending,
    requestDate := 10, responseDate := none, createdAt := 10, updatedAt := 10 }

/-- A store holding consultant 1, client 5 and the pending connection. -/
def dbEx : Db :=
  { consultants := [1], clients := [5], connections := [exConn], nextId := 2 }

/-- The historical record of a removed connection between the same pair. -/
def exConnRemoved : Connection :=
  { exConn with status := ConnStatus.removed, responseDate := some 15, updatedAt := 18 }

/-- A store where the only record between the pair is removed. -/
def dbRem : Db :=
  { consultants := [1], clients := [5], connections := [exConnRemoved], nextId := 2 }

/-- The sample connection after the receiver accepted it at time 20. -/
def exConnAccepted : Connection :=
  { exConn with status := ConnStatus.accepted, responseDate := some 20, updatedAt := 20 }

/-- The sample store after that acceptance. -/
def dbExAccepted : Db := { dbEx with connections := [exConnAccepted] }

/-- The row inserted by a fresh request in the store with only history. -/
def exNewConn : Connection :=
  newConnectionRow dbRem 1 UserType.consultant ⟨5, UserType.client⟩ 30

/-- The store with history after that fresh request. -/
def dbRemAfter : Db :=
  { dbRem with connections := dbRem.connections ++ [exNewConn], nextId := dbRem.nextId + 1 }

/-! Helper lemmas about the repository lookups. -/

theorem mostRecentlyCreated_eq_none_iff (l : List Connection) :
    mostRecentlyCreated l = none ↔ l = [] := by
  cases l with
  | nil => simp [mostRecentlyCreated]
  | cons c rest =>
    simp only [mostRecentlyCreated]
    cases h : mostRecentlyCreated rest with
    | none => simp
    | some b =>
      by_cases hlt : c.createdAt < b.createdAt <;> simp [hlt]

theorem mostRecentlyCreated_mem :
    ∀ (l : List Connection) (c : Connection), mostRecentlyCreated l = some c → c ∈ l := by
  intro l
  induction l with
  | nil => intro c h; simp [mostRecentlyCreated] at h
  | cons x xs ih =>
    intro c h
    simp only [mostRecentlyCreated] at h
    cases hx : mostRecentlyCreated xs with
    | none =>
      simp only [hx, Option.some.injEq] at h
      subst h
      exact List.mem_cons_self ..
    | some b =>
      simp only [hx] at h
      by_cases hlt : x.createdAt < b.createdAt
      · rw [if_pos hlt, Option.some.injEq] at h
        subst h
        exact List.mem_cons_of_mem _ (ih _ hx)
      · rw [if_neg hlt, Option.some.injEq] at h
        subst h
        exact List.mem_cons_self ..

theorem mostRecentlyCreated_ge :
    ∀ (l : List Connection) (c : Connection), mostRecentlyCreated l = some c →
      ∀ x ∈ l, x.createdAt ≤ c.createdAt := by
  intro l
  induction l with
  | nil => intro c h; simp [mostRecentlyCreated] at h
  | cons y xs ih =>
    intro c h x hx
    simp only [mostRecentlyCreated] at h
    cases hmr : mostRecentlyCreated xs with
    | none =>
      simp only [hmr, Option.some.injEq] at h
      subst h
      rcases List.mem_cons.mp hx with rfl | hxs
      · exact Nat.le_refl _
      · rw [mostRecentlyCreated_eq_none_iff] at hmr
        subst hmr
        simp at hxs
    | some b =>
      simp only [hmr] at h
      by_cases hlt : y.createdAt < b.createdAt
      · rw [if_pos hlt, Option.some.injEq] at h
        subst h
        rcases List.mem_cons.mp hx with rfl | hxs
        · exact Nat.le_of_lt hlt
        · exact ih _ hmr _ hxs
      · rw [if_neg hlt, Option.some.injEq] at h
        subst h
        rcases List.mem_cons.mp hx with rfl | hxs
        · exact Nat.le_refl _
        · exact Nat.le_trans (ih _ hmr _ hxs) (Nat.le_of_not_lt hlt)

theorem getExistingConnection_some (db : Db) (u1Id : Nat) (u1Ty : UserType)
    (u2Id : Nat) (u2Ty : UserType) (c : Connection)
    (h : getExistingConnection db u1Id u1Ty u2Id u2Ty = some c) :
    c ∈ db.connections ∧ pairMatches c u1Id u1Ty u2Id u2Ty = true ∧ isActive c = true ∧
      ∀ x ∈ db.connections, pairMatches x u1Id u1Ty u2Id u2Ty = true →
        isActive x = true → x.createdAt ≤ c.createdAt := by
  unfold getExistingConnection at h
  have hmem := mostRecentlyCreated_mem _ _ h
  have hmax := mostRecentlyCreated_ge _ _ h
  rw [List.mem_filter] at hmem
  obtain ⟨h1, h2⟩ := hmem
  rw [Bool.and_eq_true] at h2
  refine ⟨h1, h2.1, h2.2, ?_⟩
  intro x hx hpm ha
  exact hmax x (List.mem_filter.mpr ⟨hx, by simp [hpm, ha]⟩)

theorem getExistingConnection_none (db : Db) (u1Id : Nat) (u1Ty : UserType)
    (u2Id : Nat) (u2Ty : UserType)
    (h : getExistingConnection db u1Id u1Ty u2Id u2Ty = none) :
    ∀ x ∈ db.connections, pairMatches x u1Id u1Ty u2Id u2Ty = true → isActive x = false := by
  unfold getExistingConnection at h
  rw [mostRecentlyCreated_eq_none_iff, List.filter_eq_nil_iff] at h
  intro x hx hpm
  have := h x hx
  rw [hpm] at this
  simpa using this

theorem getExistingConnection_eq_none (db : Db) (u1Id : Nat) (u1Ty : UserType)
    (u2Id : Nat) (u2Ty : UserType)
    (h : ∀ x ∈ db.connections, pairMatches x u1Id u1Ty u2Id u2Ty = true → isActive x = false) :
    getExistingConnection db u1Id u1Ty u2Id u2Ty = none := by
  unfold getExistingConnection
  rw [mostRecentlyCreated_eq_none_iff, List.filter_eq_nil_iff]
  intro x hx
  rw [Bool.and_eq_true, not_and]
  intro hpm
  rw [h x hx hpm]
  simp

theorem pairMatches_comm (c : Connection) (u1Id : Nat) (u1Ty : UserType)
    (u2Id : Nat) (u2Ty : UserType) :
    pairMatches c u1Id u1Ty u2Id u2Ty = pairMatches c u2Id u2Ty u1Id u1Ty :=
  Bool.or_comm _ _

/-- Claim C5: the active-connection lookup matches both orderings of the pair,
considers only pending/accepted records, and returns a most recently created
one when several exist. -/
theorem getExistingConnection_spec (db : Db) (u1Id : Nat) (u1Ty : UserType)
    (u2Id : Nat) (u2Ty : UserType) :
    getExistingConnection db u1Id u1Ty u2Id u2Ty = getExistingConnection db u2Id u2Ty u1Id u1Ty
    ∧ (∀ c, getExistingConnection db u1Id u1Ty u2Id u2Ty = some c →
        c ∈ db.connections ∧ pairMatches c u1Id u1Ty u2Id u2Ty = true ∧
        (c.status = ConnStatus.pending ∨ c.status = ConnStatus.accepted) ∧
        ∀ x ∈ db.connections, pairMatches x u1Id u1Ty u2Id u2Ty = true →
          isActive x = true → x.createdAt ≤ c.createdAt)
    ∧ (getExistingConnection db u1Id u1Ty u2Id u2Ty = none →
        ∀ x ∈ db.connections, pairMatches x u1Id u1Ty u2Id u2Ty = true →
          isActive x = false) := by
  refine ⟨?_, ?_, getExistingConnection_none db u1Id u1Ty u2Id u2Ty⟩
  · unfold getExistingConnection
    congr 1
    apply List.filter_congr
    intro x _
    rw [pairMatches_comm x u1Id u1Ty u2Id u2Ty]
  · intro c h
    obtain ⟨h1, h2, h3, h4⟩ := getExistingConnection_some db u1Id u1Ty u2Id u2Ty c h
    refine ⟨h1, h2, ?_, h4⟩
    unfold isActive at h3
    rw [Bool.or_eq_true, beq_iff_eq, beq_iff_eq] at h3
    exact h3

/-- Witness for claim C5 at concrete data: the lookup between consultant 1 and
client 5 in the sample store finds the pending record in either argument
order, and that record is active and maximal. -/
theorem getExistingConnection_spec_witness :
    exConn ∈ dbEx.connections ∧ pairMatches exConn 5 UserType.client 1 UserType.consultant = true ∧
      (exConn.status = ConnStatus.pending ∨ exConn.status = ConnStatus.accepted) ∧
      ∀ x ∈ dbEx.connections, pairMatches x 5 UserType.client 1 UserType.consultant = true →
        isActive x = true → x.createdAt ≤ exConn.createdAt :=
  (getExistingConnection_spec dbEx 5 UserType.client 1 UserType.consultant).2.1 exConn (by decide)

/-! Helper lemmas about `validateStatusTransition` and `updateConnectionStatus`. -/

theorem validateStatusTransition_eq (current new : ConnStatus) (isRequester isReceiver : Bool) :
    validateStatusTransition current new isRequester isReceiver =
      (if current = ConnStatus.pending ∧ (new = ConnStatus.accepted ∨ new = ConnStatus.rejected) then
        (if isReceiver then Except.ok () else Except.error ConnErr.onlyReceiver)
      else if current = ConnStatus.accepted ∧ new = ConnStatus.removed then Except.ok ()
      else Except.error (ConnErr.invalidTransition current new)) := by
  cases current <;> cases new <;> cases isReceiver <;> simp [validateStatusTransition]

theorem updateConnectionStatus_of_none (db : Db) (cid uid : Nat) (uty : UserType)
    (data : UpdateConnectionRequest) (now : Nat)
    (h : getConnectionById db cid = none) :
    updateConnectionStatus db cid uid uty data now = Except.error ConnErr.connectionNotFound := by
  simp [updateConnectionStatus, h]

theorem updateConnectionStatus_not_involved (db : Db) (cid uid : Nat) (uty : UserType)
    (data : UpdateConnectionRequest) (now : Nat) (conn : Connection)
    (hconn : getConnectionById db cid = some conn)
    (hr : isReceiverOf conn uid uty = false) (hq : isRequesterOf conn uid uty = false) :
    updateConnectionStatus db cid uid uty data now = Except.error ConnErr.unauthorized := by
  simp [updateConnectionStatus, hconn, hr, hq]

theorem updateConnectionStatus_of_invalid (db : Db) (cid uid : Nat) (uty : UserType)
    (data : UpdateConnectionRequest) (now : Nat) (conn : Connection) (e : ConnErr)
    (hconn : getConnectionById db cid = some conn)
    (hinv : ¬(isReceiverOf conn uid uty = false ∧ isRequesterOf conn uid uty = false))
    (hval : validateStatusTransition conn.status data.status
        (isRequesterOf conn uid uty) (isReceiverOf conn uid uty) = Except.error e) :
    updateConnectionStatus db cid uid uty data now = Except.error e := by
  have hcond : (!isReceiverOf conn uid uty && !isRequesterOf conn uid uty) = false := by
    cases h1 : isReceiverOf conn uid uty <;> cases h2 : isRequesterOf conn uid uty <;> simp_all
  simp [updateConnectionStatus, hconn, hcond, hval]

theorem updateConnectionStatus_of_valid (db : Db) (cid uid : Nat) (uty : UserType)
    (data : UpdateConnectionRequest) (now : Nat) (conn : Connection)
    (hconn : getConnectionById db cid = some conn)
    (hinv : ¬(isReceiverOf conn uid uty = false ∧ isRequesterOf conn uid uty = false))
    (hval : validateStatusTransition conn.status data.status
        (isRequesterOf conn uid uty) (isReceiverOf conn uid uty) = Except.ok ()) :
    updateConnectionStatus db cid uid uty data now =
      Except.ok (updatedRow conn data now,
        { db with connections := db.connections.map fun c =>
            if c.connectionId == cid then updatedRow conn data now else c }) := by
  have hcond : (!isReceiverOf conn uid uty && !isRequesterOf conn uid uty) = false := by
    cases h1 : isReceiverOf conn uid uty <;> cases h2 : isRequesterOf conn uid uty <;> simp_all
  simp [updateConnectionStatus, hconn, hcond, hval, updatedRow]

theorem updateConnectionStatus_ok_inv (db : Db) (cid uid : Nat) (uty : UserType)
    (data : UpdateConnectionRequest) (now : Nat) (c : Connection) (db2 : Db)
    (h : updateConnectionStatus db cid uid uty data now = Except.ok (c, db2)) :
    ∃ conn, getConnectionById db cid = some conn ∧
      ¬(isReceiverOf conn uid uty = false ∧ isRequesterOf conn uid uty = false) ∧
      validateStatusTransition conn.status data.status
        (isRequesterOf conn uid uty) (isReceiverOf conn uid uty) = Except.ok () ∧
      c = updatedRow conn data now ∧
      db2 = { db with connections := db.connections.map fun x =>
          if x.connectionId == cid then c else x } := by
  cases hconn : getConnectionById db cid with
  | none => rw [updateConnectionStatus_of_none db cid uid uty data now hconn] at h; cases h
  | some conn =>
    refine ⟨conn, rfl, ?_⟩
    by_cases hinv : isReceiverOf conn uid uty = false ∧ isRequesterOf conn uid uty = false
    · rw [updateConnectionStatus_not_involved db cid uid uty data now conn hconn
        hinv.1 hinv.2] at h
      cases h
    · cases hval : validateStatusTransition conn.status data.status
          (isRequesterOf conn uid uty) (isReceiverOf conn uid uty) with
      | error e =>
        rw [updateConnectionStatus_of_invalid db cid uid uty data now conn e hconn hinv hval] at h
        cases h
      | ok u =>
        cases u
        rw [updateConnectionStatus_of_valid db cid uid uty data now conn hconn hinv hval] at h
        rw [Except.ok.injEq, Prod.mk.injEq] at h
        obtain ⟨hc, hdb⟩ := h
        subst hc
        exact ⟨hinv, rfl, rfl, hdb.symm⟩

/-- Claim C1: the state machine of `updateConnectionStatus`: missing
connection fails NotFound; an actor who is neither the stored requester nor
receiver fails Unauthorized; from pending, accepted/rejected is legal only for
the receiver (the requester gets an Unauthorized failure); from accepted,
removed is legal for either party; every other combination fails
InvalidTransition. -/
theorem updateConnectionStatus_state_machine (db : Db) (cid userId : Nat)
    (userType : UserType) (newStatus : ConnStatus) (now : Nat) :
    (getConnectionById db cid = none →
      updateConnectionStatus db cid userId userType ⟨newStatus⟩ now =
        Except.error ConnErr.connectionNotFound)
    ∧ (∀ conn, getConnectionById db cid = some conn →
      ((isReceiverOf conn userId userType = false →
          isRequesterOf conn userId userType = false →
          updateConnectionStatus db cid userId userType ⟨newStatus⟩ now =
            Except.error ConnErr.unauthorized ∧
          ConnErr.isUnauthorized ConnErr.unauthorized = true)
      ∧ (conn.status = ConnStatus.pending →
          (newStatus = ConnStatus.accepted ∨ newStatus = ConnStatus.rejected) →
          ((isReceiverOf conn userId userType = true →
            ∃ c db2, updateConnectionStatus db cid userId userType ⟨newStatus⟩ now =
              Except.ok (c, db2))
          ∧ (isReceiverOf conn userId userType = false →
             isRequesterOf conn userId userType = true →
             updateConnectionStatus db cid userId userType ⟨newStatus⟩ now =
               Except.error ConnErr.onlyReceiver ∧
             ConnErr.isUnauthorized ConnErr.onlyReceiver = true)))
      ∧ (conn.status = ConnStatus.accepted → newStatus = ConnStatus.removed →
          (isReceiverOf conn userId userType = true ∨
            isRequesterOf conn userId userType = true) →
          ∃ c db2, updateConnectionStatus db cid userId userType ⟨newStatus⟩ now =
            Except.ok (c, db2))
      ∧ (¬((conn.status = ConnStatus.pending ∧
            (newStatus = ConnStatus.accepted ∨ newStatus = ConnStatus.rejected)) ∨
           (conn.status = ConnStatus.accepted ∧ newStatus = ConnStatus.removed)) →
          (isReceiverOf conn userId userType = true ∨
            isRequesterOf conn userId userType = true) →
          updateConnectionStatus db cid userId userType ⟨newStatus⟩ now =
            Except.error (ConnErr.invalidTransition conn.status newStatus)))) := by
  constructor
  · intro h
    exact updateConnectionStatus_of_none db cid userId userType ⟨newStatus⟩ now h
  · intro conn hconn
    refine ⟨?_, ?_, ?_, ?_⟩
    · intro h1 h2
      exact ⟨updateConnectionStatus_not_involved db cid userId userType ⟨newStatus⟩ now conn
        hconn h1 h2, rfl⟩
    · intro hs hn
      constructor
      · intro hrecv
        refine ⟨_, _, updateConnectionStatus_of_valid db cid userId userType ⟨newStatus⟩ now conn
          hconn ?_ ?_⟩
        · intro hc
          rw [hrecv] at hc
          cases hc.1
        · rw [validateStatusTransition_eq, if_pos ⟨hs, hn⟩, hrecv]
          simp
      · intro hrecv hreq
        refine ⟨updateConnectionStatus_of_invalid db cid userId userType ⟨newStatus⟩ now conn
          ConnErr.onlyReceiver hconn ?_ ?_, rfl⟩
        · intro hc
          rw [hreq] at hc
          cases hc.2
        · rw [validateStatusTransition_eq, if_pos ⟨hs, hn⟩, hrecv]
          simp
    · intro hs hn hinvolved
      refine ⟨_, _, updateConnectionStatus_of_valid db cid userId userType ⟨newStatus⟩ now conn
        hconn ?_ ?_⟩
      · intro hc
        rcases hinvolved with h | h
        · rw [h] at hc; cases hc.1
        · rw [h] at hc; cases hc.2
      · rw [validateStatusTransition_eq]
        have hnot : ¬(conn.status = ConnStatus.pending ∧
            (newStatus = ConnStatus.accepted ∨ newStatus = ConnStatus.rejected)) := by
          rw [hs, hn]; simp
        rw [if_neg hnot, if_pos ⟨hs, hn⟩]
    · intro hother hinvolved
      refine updateConnectionStatus_of_invalid db cid userId userType ⟨newStatus⟩ now conn
        (ConnErr.invalidTransition conn.status newStatus) hconn ?_ ?_
      · intro hc
        rcases hinvolved with h | h
        · rw [h] at hc; cases hc.1
        · rw [h] at hc; cases hc.2
      · rw [validateStatusTransition_eq]
        rw [not_or] at hother
        rw [if_neg hother.1, if_neg hother.2]

/-- Witness for claim C1 at concrete data: in the sample store, the receiver
(client 5) may accept the pending request, and the requester (consultant 1)
gets an Unauthorized failure when trying to accept it. -/
theorem updateConnectionStatus_state_machine_witness :
    (∃ c db2, updateConnectionStatus dbEx 1 5 UserType.client ⟨ConnStatus.accepted⟩ 20 =
      Except.ok (c, db2))
    ∧ (updateConnectionStatus dbEx 1 1 UserType.consultant ⟨ConnStatus.accepted⟩ 20 =
        Except.error ConnErr.onlyReceiver ∧
      ConnErr.isUnauthorized ConnErr.onlyReceiver = true) := by
  have h1 := ((updateConnectionStatus_state_machine dbEx 1 5 UserType.client
    ConnStatus.accepted 20).2 exConn (by decide)).2.1 (by decide) (Or.inl rfl)
  have h2 := ((updateConnectionStatus_state_machine dbEx 1 1 UserType.consultant
    ConnStatus.accepted 20).2 exConn (by decide)).2.1 (by decide) (Or.inl rfl)
  exact ⟨h1.1 (by decide), h2.2 (by decide) (by decide)⟩

/-! Helper lemmas about `createConnection`. -/

theorem createConnection_receiver_missing (db : Db) (rq : Nat) (rqT : UserType)
    (data : CreateConnectionRequest) (now : Nat)
    (h : userExists db data.receiverId data.receiverType = false) :
    createConnection db rq rqT data now =
      Except.error (ConnErr.userNotFound data.receiverType) := by
  simp [createConnection, validateUserExists, h]

theorem createConnection_requester_missing (db : Db) (rq : Nat) (rqT : UserType)
    (data : CreateConnectionRequest) (now : Nat)
    (hrec : userExists db data.receiverId data.receiverType = true)
    (h : userExists db rq rqT = false) :
    createConnection db rq rqT data now = Except.error (ConnErr.userNotFound rqT) := by
  simp [createConnection, validateUserExists, hrec, h]

theorem createConnection_self_eq (db : Db) (rq : Nat) (rqT : UserType)
    (data : CreateConnectionRequest) (now : Nat)
    (hrec : userExists db data.receiverId data.receiverType = true)
    (hreq : userExists db rq rqT = true)
    (hself : rq = data.receiverId ∧ rqT = data.receiverType) :
    createConnection db rq rqT data now = Except.error ConnErr.selfConnection := by
  simp [createConnection, validateUserExists, hrec, hreq, hself.1, hself.2]

theorem createConnection_existing (db : Db) (rq : Nat) (rqT : UserType)
    (data : CreateConnectionRequest) (now : Nat) (ex : Connection)
    (hrec : userExists db data.receiverId data.receiverType = true)
    (hreq : userExists db rq rqT = true)
    (hns : ¬(rq = data.receiverId ∧ rqT = data.receiverType))
    (hex : getExistingConnection db rq rqT data.receiverId data.receiverType = some ex) :
    createConnection db rq rqT data now =
      (if ex.status == ConnStatus.pending then Except.error ConnErr.duplicatePending
      else if ex.status == ConnStatus.accepted then Except.error ConnErr.alreadyConnected
      else insertConnection db rq rqT data now) := by
  have hcond : (rq == data.receiverId && rqT == data.receiverType) = false := by
    rw [Bool.and_eq_false_iff]
    rcases Decidable.not_and_iff_or_not.mp hns with h | h
    · exact Or.inl (by simpa using h)
    · exact Or.inr (by simpa using h)
  simp only [createConnection, validateUserExists, hrec, hreq, if_true, hcond, hex]
  simp

theorem createConnection_fresh (db : Db) (rq : Nat) (rqT : UserType)
    (data : CreateConnectionRequest) (now : Nat)
    (hrec : userExists db data.receiverId data.receiverType = true)
    (hreq : userExists db rq rqT = true)
    (hns : ¬(rq = data.receiverId ∧ rqT = data.receiverType))
    (hex : getExistingConnection db rq rqT data.receiverId data.receiverType = none) :
    createConnection db rq rqT data now = insertConnection db rq rqT data now := by
  have hcond : (rq == data.receiverId && rqT == data.receiverType) = false := by
    rw [Bool.and_eq_false_iff]
    rcases Decidable.not_and_iff_or_not.mp hns with h | h
    · exact Or.inl (by simpa using h)
    · exact Or.inr (by simpa using h)
  simp only [createConnection, validateUserExists, hrec, hreq, if_true, hcond, hex]
  simp

theorem createConnection_ok_inv (db : Db) (rq : Nat) (rqT : UserType)
    (data : CreateConnectionRequest) (now : Nat) (c : Connection) (db2 : Db)
    (h : createConnection db rq rqT data now = Except.ok (c, db2)) :
    c = newConnectionRow db rq rqT data now ∧
    db2 = { db with connections := db.connections ++ [c], nextId := db.nextId + 1 } := by
  by_cases h1 : userExists db data.receiverId data.receiverType = true
  · by_cases h2 : userExists db rq rqT = true
    · by_cases hself : rq = data.receiverId ∧ rqT = data.receiverType
      · rw [createConnection_self_eq db rq rqT data now h1 h2 hself] at h
        cases h
      · cases hex : getExistingConnection db rq rqT data.receiverId data.receiverType with
        | some ex =>
          rw [createConnection_existing db rq rqT data now ex h1 h2 hself hex] at h
          split at h
          · cases h
          · split at h
            · cases h
            · rw [insertConnection, Except.ok.injEq, Prod.mk.injEq] at h
              obtain ⟨hc, hdb⟩ := h
              subst hc
              exact ⟨rfl, hdb.symm⟩
        | none =>
          rw [createConnection_fresh db rq rqT data now h1 h2 hself hex] at h
          rw [insertConnection, Except.ok.injEq, Prod.mk.injEq] at h
          obtain ⟨hc, hdb⟩ := h
          subst hc
          exact ⟨rfl, hdb.symm⟩
    · rw [createConnection_requester_missing db rq rqT data now h1
        (Bool.not_eq_true _ ▸ h2)] at h
      cases h
  · rw [createConnection_receiver_missing db rq rqT data now (Bool.not_eq_true _ ▸ h1)] at h
    cases h

/-- Claim C2: `createConnection` checks its preconditions in order with the
first failure winning: existence of both participants (NotFound), then the
self-connection check, then the active-record check (DuplicatePending for a
pending record, AlreadyConnected for an accepted one); only when all pass
does it insert, and the inserted record is pending. -/
theorem createConnection_check_order (db : Db) (rq : Nat) (rqT : UserType)
    (data : CreateConnectionRequest) (now : Nat) :
    ((userExists db data.receiverId data.receiverType = false ∨
        userExists db rq rqT = false) →
      ∃ t, createConnection db rq rqT data now = Except.error (ConnErr.userNotFound t) ∧
        (ConnErr.userNotFound t).isNotFound = true)
    ∧ (userExists db data.receiverId data.receiverType = true →
       userExists db rq rqT = true →
       rq = data.receiverId ∧ rqT = data.receiverType →
       createConnection db rq rqT data now = Except.error ConnErr.selfConnection)
    ∧ (userExists db data.receiverId data.receiverType = true →
       userExists db rq rqT = true →
       ¬(rq = data.receiverId ∧ rqT = data.receiverType) →
       ∀ ex, getExistingConnection db rq rqT data.receiverId data.receiverType = some ex →
         (ex.status = ConnStatus.pending →
           createConnection db rq rqT data now = Except.error ConnErr.duplicatePending) ∧
         (ex.status = ConnStatus.accepted →
           createConnection db rq rqT data now = Except.error ConnErr.alreadyConnected))
    ∧ (userExists db data.receiverId data.receiverType = true →
       userExists db rq rqT = true →
       ¬(rq = data.receiverId ∧ rqT = data.receiverType) →
       getExistingConnection db rq rqT data.receiverId data.receiverType = none →
       createConnection db rq rqT data now =
         Except.ok (newConnectionRow db rq rqT data now,
           { db with connections := db.connections ++ [newConnectionRow db rq rqT data now]
                     nextId := db.nextId + 1 }) ∧
       (newConnectionRow db rq rqT data now).status = ConnStatus.pending) := by
  refine ⟨?_, ?_, ?_, ?_⟩
  · intro h
    by_cases h1 : userExists db data.receiverId data.receiverType = true
    · rcases h with h | h
      · rw [h1] at h; cases h
      · exact ⟨rqT, createConnection_requester_missing db rq rqT data now h1 h, rfl⟩
    · exact ⟨data.receiverType,
        createConnection_receiver_missing db rq rqT data now (Bool.not_eq_true _ ▸ h1), rfl⟩
  · exact createConnection_self_eq db rq rqT data now
  · intro h1 h2 hns ex hex
    constructor
    · intro hst
      rw [createConnection_existing db rq rqT data now ex h1 h2 hns hex, hst]
      simp
    · intro hst
      rw [createConnection_existing db rq rqT data now ex h1 h2 hns hex, hst]
      simp
  · intro h1 h2 hns hex
    rw [createConnection_fresh db rq rqT data now h1 h2 hns hex, insertConnection]
    exact ⟨rfl, rfl⟩

/-- Witness for claim C2 at concrete data: a second request while the sample
request is still pending fails DuplicatePending, and a request to a missing
client fails NotFound. -/
theorem createConnection_check_order_witness :
    createConnection dbEx 1 UserType.consultant ⟨5, UserType.client⟩ 30 =
      Except.error ConnErr.duplicatePending
    ∧ ∃ t, createConnection dbEx 1 UserType.consultant ⟨9, UserType.client⟩ 30 =
        Except.error (ConnErr.userNotFound t) ∧ (ConnErr.userNotFound t).isNotFound = true := by
  constructor
  · exact ((createConnection_check_order dbEx 1 UserType.consultant ⟨5, UserType.client⟩ 30).2.2.1
      (by decide) (by decide) (by decide) exConn (by decide)).1 rfl
  · exact (createConnection_check_order dbEx 1 UserType.consultant ⟨9, UserType.client⟩ 30).1
      (Or.inl (by decide))

/-- Claim C3: a successful status update sets responseDate to now when the
row was pending, keeps responseDate unchanged on accepted-to-removed, sets
updatedAt to now, and modifies no column of the row other than Status,
ResponseDate and UpdatedAt; rows with a different id are untouched. -/
theorem updateConnectionStatus_effects (db : Db) (cid uid : Nat) (uty : UserType)
    (data : UpdateConnectionRequest) (now : Nat) (c : Connection) (db2 : Db)
    (h : updateConnectionStatus db cid uid uty data now = Except.ok (c, db2)) :
    ∃ conn, getConnectionById db cid = some conn ∧
      (conn.status = ConnStatus.pending → c.responseDate = some now) ∧
      (conn.status = ConnStatus.accepted ∧ data.status = ConnStatus.removed →
        c.responseDate = conn.responseDate) ∧
      c.updatedAt = now ∧
      c.status = data.status ∧
      c.connectionId = conn.connectionId ∧
      c.requesterId = conn.requesterId ∧
      c.requesterType = conn.requesterType ∧
      c.receiverId = conn.receiverId ∧
      c.receiverType = conn.receiverType ∧
      c.requestDate = conn.requestDate ∧
      c.createdAt = conn.createdAt ∧
      db2.connections = db.connections.map fun x =>
        if x.connectionId == cid then c else x := by
  obtain ⟨conn, hconn, hinv, hval, hc, hdb⟩ :=
    updateConnectionStatus_ok_inv db cid uid uty data now c db2 h
  subst hc
  subst hdb
  refine ⟨conn, hconn, ?_, ?_, rfl, rfl, rfl, rfl, rfl, rfl, rfl, rfl, rfl, rfl⟩
  · intro hs
    simp [updatedRow, hs]
  · intro hs
    simp [updatedRow, hs.1]

/-- Witness for claim C3 at concrete data: accepting the sample pending
request at time 20 writes responseDate 20 and updatedAt 20. -/
theorem updateConnectionStatus_effects_witness :
    exConnAccepted.responseDate = some 20 ∧ exConnAccepted.updatedAt = 20 := by
  obtain ⟨conn, hconn, h1, h2, h3, hrest⟩ :=
    updateConnectionStatus_effects dbEx 1 5 UserType.client ⟨ConnStatus.accepted⟩ 20
      exConnAccepted dbExAccepted rfl
  have hx : getConnectionById dbEx 1 = some exConn := rfl
  rw [hx, Option.some.injEq] at hconn
  subst hconn
  exact ⟨h1 rfl, h3⟩

theorem validateStatusTransition_ok_inv (current new : ConnStatus)
    (isRequester isReceiver : Bool)
    (h : validateStatusTransition current new isRequester isReceiver = Except.ok ()) :
    (current = ConnStatus.pending ∧
      (new = ConnStatus.accepted ∨ new = ConnStatus.rejected) ∧ isReceiver = true)
    ∨ (current = ConnStatus.accepted ∧ new = ConnStatus.removed) := by
  rw [validateStatusTransition_eq] at h
  split at h
  case isTrue h1 =>
    cases hr : isReceiver
    · rw [hr] at h
      simp at h
    · exact Or.inl ⟨h1.1, h1.2, rfl⟩
  case isFalse h1 =>
    split at h
    case isTrue h2 => exact Or.inr h2
    case isFalse h2 => cases h

/-- Claim C4: responseDate is null iff status is pending, for every record
produced or updated by the lifecycle operations: createConnection inserts a
pending record without a responseDate (and preserves the invariant across the
store), and a successful update sets a non-null responseDate exactly when the
row leaves pending, never producing a pending row, preserving the invariant. -/
theorem responseDate_null_iff_pending :
    (∀ (db : Db) (rq : Nat) (rqT : UserType) (data : CreateConnectionRequest)
      (now : Nat) (c : Connection) (db2 : Db),
      createConnection db rq rqT data now = Except.ok (c, db2) →
      c.responseDate = none ∧ c.status = ConnStatus.pending ∧
      ((∀ x ∈ db.connections, (x.responseDate = none ↔ x.status = ConnStatus.pending)) →
        ∀ x ∈ db2.connections, (x.responseDate = none ↔ x.status = ConnStatus.pending)))
    ∧ (∀ (db : Db) (cid uid : Nat) (uty : UserType) (data : UpdateConnectionRequest)
      (now : Nat) (c : Connection) (db2 : Db),
      updateConnectionStatus db cid uid uty data now = Except.ok (c, db2) →
      ∃ conn, getConnectionById db cid = some conn ∧
        (conn.status = ConnStatus.pending → c.responseDate = some now) ∧
        (conn.status ≠ ConnStatus.pending → c.responseDate = conn.responseDate) ∧
        c.status ≠ ConnStatus.pending ∧
        ((∀ x ∈ db.connections, (x.responseDate = none ↔ x.status = ConnStatus.pending)) →
          c.responseDate ≠ none ∧
          ∀ x ∈ db2.connections, (x.responseDate = none ↔ x.status = ConnStatus.pending))) := by
  constructor
  · intro db rq rqT data now c db2 h
    obtain ⟨hc, hdb⟩ := createConnection_ok_inv db rq rqT data now c db2 h
    subst hc
    subst hdb
    refine ⟨rfl, rfl, ?_⟩
    intro hinvdb x hx
    rcases List.mem_append.mp hx with hx | hx
    · exact hinvdb x hx
    · rw [List.mem_singleton] at hx
      subst hx
      simp [newConnectionRow]
  · intro db cid uid uty data now c db2 h
    obtain ⟨conn, hconn, hinv, hval, hc, hdb⟩ :=
      updateConnectionStatus_ok_inv db cid uid uty data now c db2 h
    subst hc
    subst hdb
    have hmem : conn ∈ db.connections := List.mem_of_find?_eq_some hconn
    have hcases := validateStatusTransition_ok_inv conn.status data.status
      (isRequesterOf conn uid uty) (isReceiverOf conn uid uty) hval
    have hcs : (updatedRow conn data now).status ≠ ConnStatus.pending := by
      rcases hcases with ⟨_, hn, _⟩ | ⟨_, hn⟩
      · rcases hn with hn | hn <;> simp [updatedRow, hn]
      · simp [updatedRow, hn]
    refine ⟨conn, hconn, ?_, ?_, hcs, ?_⟩
    · intro hs
      simp [updatedRow, hs]
    · intro hs
      have hb : (conn.status == ConnStatus.pending) = false := by
        simp [hs]
      simp [updatedRow, hb]
    · intro hinvdb
      have hne : (updatedRow conn data now).responseDate ≠ none := by
        rcases hcases with ⟨hs, _, _⟩ | ⟨hs, _⟩
        · simp [updatedRow, hs]
        · have hiff := hinvdb conn hmem
          have hcne : conn.responseDate ≠ none := by
            intro hnone
            have hp := hiff.mp hnone
            rw [hs] at hp
            cases hp
          simpa [updatedRow, hs] using hcne
      refine ⟨hne, ?_⟩
      intro x hx
      have hciff : ((updatedRow conn data now).responseDate = none ↔
          (updatedRow conn data now).status = ConnStatus.pending) := by
        constructor
        · intro hz
          exact absurd hz hne
        · intro hz
          exact absurd hz hcs
      rcases List.mem_map.mp hx with ⟨a, ha, heq⟩
      by_cases hcond : (a.connectionId == cid) = true
      · rw [if_pos hcond] at heq
        rw [← heq]
        exact hciff
      · rw [if_neg (by simpa using hcond)] at heq
        rw [← heq]
        exact hinvdb a ha

/-- Witness for claim C4 at concrete data: the record inserted by a fresh
request in the history-only store is pending and has no responseDate. -/
theorem responseDate_null_iff_pending_witness :
    exNewConn.responseDate = none ∧ exNewConn.status = ConnStatus.pending := by
  have h := responseDate_null_iff_pending.1 dbRem 1 UserType.consultant
    ⟨5, UserType.client⟩ 30 exNewConn dbRemAfter rfl
  exact ⟨h.1, h.2.1⟩

/-- Claim C6: getConnectionStatus returns status "none" with canConnect when
no active record exists; when a record is found, canConnect equals whether
that record's status is rejected or removed, hence is false for
pending/accepted. -/
theorem getConnectionStatus_spec (db : Db) (u1Id : Nat) (u1Ty : UserType)
    (u2Id : Nat) (u2Ty : UserType) :
    (getExistingConnection db u1Id u1Ty u2Id u2Ty = none →
      getConnectionStatus db u1Id u1Ty u2Id u2Ty =
        { status := "none", canConnect := true, connection := none })
    ∧ (∀ c, getExistingConnection db u1Id u1Ty u2Id u2Ty = some c →
        (getConnectionStatus db u1Id u1Ty u2Id u2Ty).canConnect =
          (c.status == ConnStatus.rejected || c.status == ConnStatus.removed) ∧
        (getConnectionStatus db u1Id u1Ty u2Id u2Ty).status = statusString c.status ∧
        (getConnectionStatus db u1Id u1Ty u2Id u2Ty).connection = some c ∧
        ((c.status = ConnStatus.pending ∨ c.status = ConnStatus.accepted) →
          (getConnectionStatus db u1Id u1Ty u2Id u2Ty).canConnect = false)) := by
  constructor
  · intro h
    simp [getConnectionStatus, h]
  · intro c h
    refine ⟨by simp [getConnectionStatus, h], by simp [getConnectionStatus, h],
      by simp [getConnectionStatus, h], ?_⟩
    intro hs
    rcases hs with hs | hs <;> simp [getConnectionStatus, h, hs]

/-- Witness for claim C6 at concrete data: the sample pair has a pending
record, so canConnect is computed from it (false), and a pair with no record
gets status "none" with canConnect. -/
theorem getConnectionStatus_spec_witness :
    (getConnectionStatus dbEx 1 UserType.consultant 5 UserType.client).canConnect =
      (exConn.status == ConnStatus.rejected || exConn.status == ConnStatus.removed)
    ∧ getConnectionStatus dbEx 2 UserType.consultant 5 UserType.client =
        { status := "none", canConnect := true, connection := none } :=
  ⟨((getConnectionStatus_spec dbEx 1 UserType.consultant 5 UserType.client).2
      exConn (by decide)).1,
    (getConnectionStatus_spec dbEx 2 UserType.consultant 5 UserType.client).1 (by decide)⟩

/-- Claim C9: the status returned by getConnectionStatus is always one of
"none", "pending", "accepted" (never "rejected" or "removed", since the
lookup filters to active statuses), and canConnect holds exactly when the
status is "none". -/
theorem getConnectionStatus_active_invariant (db : Db) (u1Id : Nat) (u1Ty : UserType)
    (u2Id : Nat) (u2Ty : UserType) :
    ((getConnectionStatus db u1Id u1Ty u2Id u2Ty).status = "none" ∨
     (getConnectionStatus db u1Id u1Ty u2Id u2Ty).status = "pending" ∨
     (getConnectionStatus db u1Id u1Ty u2Id u2Ty).status = "accepted")
    ∧ ((getConnectionStatus db u1Id u1Ty u2Id u2Ty).canConnect = true ↔
       (getConnectionStatus db u1Id u1Ty u2Id u2Ty).status = "none") := by
  cases h : getExistingConnection db u1Id u1Ty u2Id u2Ty with
  | none => simp [getConnectionStatus, h]
  | some c =>
    obtain ⟨_, _, hact, _⟩ := getExistingConnection_some db u1Id u1Ty u2Id u2Ty c h
    unfold isActive at hact
    rw [Bool.or_eq_true, beq_iff_eq, beq_iff_eq] at hact
    rcases hact with hs | hs <;> simp [getConnectionStatus, h, hs, statusString]

/-- Claim C7: a request whose receiver reference equals the requester
reference (same id and same kind) fails SelfConnection; two references
sharing the id but differing in kind are never rejected as self-connection. -/
theorem createConnection_self_spec (db : Db) (id : Nat) (ty ty2 : UserType) (now : Nat) :
    (userExists db id ty = true →
      createConnection db id ty ⟨id, ty⟩ now = Except.error ConnErr.selfConnection)
    ∧ (ty ≠ ty2 →
      createConnection db id ty ⟨id, ty2⟩ now ≠ Except.error ConnErr.selfConnection) := by
  constructor
  · intro h
    exact createConnection_self_eq db id ty ⟨id, ty⟩ now h h ⟨rfl, rfl⟩
  · intro hne
    by_cases h1 : userExists db id ty2 = true
    · by_cases h2 : userExists db id ty = true
      · have hns : ¬(id = id ∧ ty = ty2) := fun hc => hne hc.2
        cases hex : getExistingConnection db id ty id ty2 with
        | some ex =>
          rw [createConnection_existing db id ty ⟨id, ty2⟩ now ex h1 h2 hns hex]
          split
          · simp
          · split
            · simp
            · simp [insertConnection]
        | none =>
          rw [createConnection_fresh db id ty ⟨id, ty2⟩ now h1 h2 hns hex]
          simp [insertConnection]
      · rw [createConnection_requester_missing db id ty ⟨id, ty2⟩ now h1
          (Bool.not_eq_true _ ▸ h2)]
        simp
    · rw [createConnection_receiver_missing db id ty ⟨id, ty2⟩ now
        (Bool.not_eq_true _ ▸ h1)]
      simp

/-- Witness for claim C7 at concrete data: consultant 1 connecting to
consultant 1 fails SelfConnection, while consultant 1 connecting to client 1
does not fail SelfConnection. -/
theorem createConnection_self_spec_witness :
    createConnection dbEx 1 UserType.consultant ⟨1, UserType.consultant⟩ 30 =
      Except.error ConnErr.selfConnection
    ∧ createConnection dbEx 1 UserType.consultant ⟨1, UserType.client⟩ 30 ≠
        Except.error ConnErr.selfConnection :=
  ⟨(createConnection_self_spec dbEx 1 UserType.consultant UserType.consultant 30).1 (by decide),
    (createConnection_self_spec dbEx 1 UserType.consultant UserType.client 30).2 (by decide)⟩

/-- Claim C8: once every record between a pair is terminal (rejected or
removed), a new createConnection for that pair succeeds, inserts a fresh
record with a new connectionId, and leaves the prior record untouched. -/
theorem createConnection_after_terminal (db : Db) (aId : Nat) (aTy : UserType)
    (bId : Nat) (bTy : UserType) (prior : Connection) (now : Nat)
    (hA : userExists db aId aTy = true) (hB : userExists db bId bTy = true)
    (hne : ¬(aId = bId ∧ aTy = bTy))
    (hprior : prior ∈ db.connections)
    (hpm : pairMatches prior aId aTy bId bTy = true)
    (hterm : prior.status = ConnStatus.rejected ∨ prior.status = ConnStatus.removed)
    (hnoactive : ∀ x ∈ db.connections,
      pairMatches x aId aTy bId bTy = true → isActive x = false)
    (hfresh : ∀ x ∈ db.connections, x.connectionId < db.nextId) :
    ∃ c db2, createConnection db aId aTy ⟨bId, bTy⟩ now = Except.ok (c, db2) ∧
      c.status = ConnStatus.pending ∧
      c.connectionId = db.nextId ∧
      c.connectionId ≠ prior.connectionId ∧
      db2.connections = db.connections ++ [c] ∧
      prior ∈ db2.connections := by
  have hex : getExistingConnection db aId aTy bId bTy = none :=
    getExistingConnection_eq_none db aId aTy bId bTy hnoactive
  refine ⟨newConnectionRow db aId aTy ⟨bId, bTy⟩ now,
    { db with connections := db.connections ++ [newConnectionRow db aId aTy ⟨bId, bTy⟩ now]
              nextId := db.nextId + 1 },
    ?_, rfl, rfl, ?_, rfl, ?_⟩
  · rw [createConnection_fresh db aId aTy ⟨bId, bTy⟩ now hB hA hne hex, insertConnection]
  · have h2 := hfresh prior hprior
    show db.nextId ≠ prior.connectionId
    omega
  · exact List.mem_append_left _ hprior

/-- Witness for claim C8 at concrete data: in the store whose only record
between the pair is removed, a new request succeeds with a fresh id and the
removed record survives unchanged. -/
theorem createConnection_after_terminal_witness :
    ∃ c db2, createConnection dbRem 1 UserType.consultant ⟨5, UserType.client⟩ 30 =
      Except.ok (c, db2) ∧
      c.status = ConnStatus.pending ∧
      c.connectionId = dbRem.nextId ∧
      c.connectionId ≠ exConnRemoved.connectionId ∧
      db2.connections = dbRem.connections ++ [c] ∧
      exConnRemoved ∈ db2.connections :=
  createConnection_after_terminal dbRem 1 UserType.consultant 5 UserType.client
    exConnRemoved 30 (by decide) (by decide) (by decide) (by decide) (by decide)
    (by decide) (by decide) (by decide)

/-! Helper lemmas about the listing sort. -/

theorem mem_insertSorted (le : Connection → Connection → Bool) (c y : Connection) :
    ∀ l : List Connection, y ∈ insertSorted le c l ↔ y = c ∨ y ∈ l := by
  intro l
  induction l with
  | nil => simp [insertSorted]
  | cons x xs ih =>
    simp only [insertSorted]
    by_cases h : le c x = true
    · rw [if_pos h]
      simp [List.mem_cons]
    · rw [if_neg h]
      simp only [List.mem_cons, ih]
      tauto

theorem pairwise_insertSorted (le : Connection → Connection → Bool)
    (htrans : ∀ a b c, le a b = true → le b c = true → le a c = true)
    (htot : ∀ a b, le a b = true ∨ le b a = true)
    (c : Connection) (l : List Connection)
    (hl : l.Pairwise fun a b => le a b = true) :
    (insertSorted le c l).Pairwise fun a b => le a b = true := by
  induction l with
  | nil => simp [insertSorted]
  | cons x xs ih =>
    rw [List.pairwise_cons] at hl
    obtain ⟨hx, hxs⟩ := hl
    simp only [insertSorted]
    by_cases h : le c x = true
    · rw [if_pos h, List.pairwise_cons]
      refine ⟨?_, List.Pairwise.cons hx hxs⟩
      intro y hy
      rcases List.mem_cons.mp hy with rfl | hy
      · exact h
      · exact htrans c x y h (hx y hy)
    · rw [if_neg h, List.pairwise_cons]
      refine ⟨?_, ih hxs⟩
      intro y hy
      rcases (mem_insertSorted le c y xs).mp hy with hyc | hy
      · rw [hyc]
        rcases htot c x with hc | hc
        · exact absurd hc h
        · exact hc
      · exact hx y hy

theorem pairwise_sortConnections (le : Connection → Connection → Bool)
    (htrans : ∀ a b c, le a b = true → le b c = true → le a c = true)
    (htot : ∀ a b, le a b = true ∨ le b a = true) :
    ∀ l : List Connection, (sortConnections le l).Pairwise fun a b => le a b = true := by
  intro l
  induction l with
  | nil => simp [sortConnections]
  | cons x xs ih => exact pairwise_insertSorted le htrans htot x _ ih

/-- Claim C10: the effective page size of getUserConnections is silently
clamped to at most 100 (in particular, an explicit limit above 100 returns at
most 100 items), with defaults page 1, limit 10 and request-date-descending
order when the corresponding filters are omitted. -/
theorem getUserConnections_pagination (db : Db) (userId : Nat) (userType : UserType)
    (filters : ConnectionFilters) :
    (getUserConnections db userId userType filters).pagination.limit ≤ 100
    ∧ (getUserConnections db userId userType filters).data.length ≤
        (getUserConnections db userId userType filters).pagination.limit
    ∧ (∀ l, filters.limit = some l → 100 < l →
        (getUserConnections db userId userType filters).data.length ≤ 100)
    ∧ (filters.limit = none →
        (getUserConnections db userId userType filters).pagination.limit = 10)
    ∧ (filters.page = none →
        (getUserConnections db userId userType filters).pagination.page = 1)
    ∧ (filters.sort_by = none → filters.sort_order = none →
        (getUserConnections db userId userType filters).data.Pairwise
          fun a b => b.requestDate ≤ a.requestDate) := by
  have hle : effectiveLimit filters ≤ 100 := by
    cases hfl : filters.limit with
    | none => simp [effectiveLimit, hfl]
    | some l =>
      simp only [effectiveLimit, hfl]
      by_cases h : (l == 0) = true
      · rw [if_pos h]
        decide
      · rw [if_neg h]
        exact Nat.min_le_right l 100
  have hdata : (getUserConnections db userId userType filters).data.length ≤
      effectiveLimit filters := by
    show (List.take (effectiveLimit filters) _).length ≤ effectiveLimit filters
    rw [List.length_take]
    exact Nat.min_le_left _ _
  refine ⟨hle, hdata, ?_, ?_, ?_, ?_⟩
  · intro l hl hgt
    exact Nat.le_trans hdata hle
  · intro h
    show effectiveLimit filters = 10
    simp [effectiveLimit, h]
  · intro h
    show effectivePage filters = 1
    simp [effectivePage, h]
  · intro hsb hso
    have hsorted := pairwise_sortConnections (sortLe SortBy.requestDate SortOrder.DESC)
      (fun a b c hab hbc => by
        simp only [sortLe, sortFieldLe, decide_eq_true_eq] at *
        exact Nat.le_trans hbc hab)
      (fun a b => by
        simp only [sortLe, sortFieldLe, decide_eq_true_eq]
        exact Nat.le_total b.requestDate a.requestDate)
      (db.connections.filter (whereMatches userId userType filters))
    have hP : (sortConnections (sortLe SortBy.requestDate SortOrder.DESC)
        (db.connections.filter (whereMatches userId userType filters))).Pairwise
        fun a b => b.requestDate ≤ a.requestDate := by
      refine hsorted.imp ?_
      intro a b hab
      simpa [sortLe, sortFieldLe] using hab
    have hdata_eq : (getUserConnections db userId userType filters).data =
        ((sortConnections (sortLe SortBy.requestDate SortOrder.DESC)
          (db.connections.filter (whereMatches userId userType filters))).drop
            ((effectivePage filters - 1) * effectiveLimit filters)).take
              (effectiveLimit filters) := by
      simp [getUserConnections, effectiveSortBy, effectiveSortOrder, hsb, hso]
    rw [hdata_eq]
    exact List.Pairwise.sublist
      ((List.take_sublist _ _).trans (List.drop_sublist _ _)) hP

/-- Witness for claim C10 at concrete data: an explicit limit of 500 still
returns at most 100 items, and with no filters the page is 1, the limit is 10
and the items are in descending request-date order. -/
theorem getUserConnections_pagination_witness :
    (getUserConnections dbEx 1 UserType.consultant { limit := some 500 }).data.length ≤ 100
    ∧ (getUserConnections dbEx 1 UserType.consultant {}).pagination.limit = 10
    ∧ (getUserConnections dbEx 1 UserType.consultant {}).pagination.page = 1
    ∧ (getUserConnections dbEx 1 UserType.consultant {}).data.Pairwise
        fun a b => b.requestDate ≤ a.requestDate :=
  ⟨(getUserConnections_pagination dbEx 1 UserType.consultant
      { limit := some 500 }).2.2.1 500 rfl (by decide),
    (getUserConnections_pagination dbEx 1 UserType.consultant {}).2.2.2.1 rfl,
    (getUserConnections_pagination dbEx 1 UserType.consultant {}).2.2.2.2.1 rfl,
    (getUserConnections_pagination dbEx 1 UserType.consultant {}).2.2.2.2.2 rfl rfl⟩

end ConsultBackend
